import Mathlib

/-!
Shallow embedding of the `api` Rust library (src/lib.rs): a transport-agnostic
HTTP API description (`Api` trait), a composable decorator (`Transform`),
status-class helpers on `HttpResponse`, the hyper `Client::send` dispatch,
and the `Method` conversions to and from hyper's method type.

Rust traits become records of functions over a carrier state type; `&self`
methods become functions of that state.  Fallible steps return `Except`.
External collaborators (the url crate's parse/join, percent-encoding, and the
transport execution) are opaque function parameters, exactly as the repo code
treats them.
-/

namespace ApiCore

/-- Headers models `pub type Headers = BTreeMap<String, Vec<String>>`:
a mapping from name to value list, kept as a list sorted by key with unique
keys (the BTreeMap representation invariant). -/
def Headers : Type := List (String × List String)

/-- Query models `pub type Query<'s> = Vec<(String, String)>`: an ordered
sequence of name/value pairs, duplicates allowed. -/
def Query : Type := List (String × String)

/-- Headers.new models `Headers::new()`: the empty mapping. -/
def Headers.new : Headers := []

/-- Headers.insert models `BTreeMap::insert` (keyed, sorted, replacing an
existing key's value). -/
def Headers.insert (m : Headers) (k : String) (v : List String) : Headers :=
  match m with
  | [] => [(k, v)]
  | (k', v') :: rest =>
    if k < k' then (k, v) :: (k', v') :: rest
    else if k = k' then (k, v) :: rest
    else (k', v') :: Headers.insert rest k v

/-- Method models the repo's `enum Method` (lib.rs lines 19-30). -/
inductive Method where
  | Get
  | Head
  | Post
  | Put
  | Delete
  | Patch
  | Options
  | Trace
  | Connect
  | Custom (s : String)
deriving DecidableEq

/-- Method.to_string models `impl ToString for Method` (lib.rs lines 32-48). -/
def Method.to_string : Method → String
  | Method.Get => "GET"
  | Method.Head => "HEAD"
  | Method.Post => "POST"
  | Method.Put => "PUT"
  | Method.Delete => "DELETE"
  | Method.Patch => "PATCH"
  | Method.Options => "OPTIONS"
  | Method.Trace => "TRACE"
  | Method.Connect => "CONNECT"
  | Method.Custom s => s

/-- HyperMethod models `hyper::method::Method` (external dependency):
the nine standard verbs plus `Extension(String)`. -/
inductive HyperMethod where
  | Get
  | Head
  | Post
  | Put
  | Delete
  | Patch
  | Options
  | Trace
  | Connect
  | Extension (s : String)
deriving DecidableEq

/-- Method.fromHyper models `impl From<hyper::method::Method> for Method`
(lib.rs lines 51-66). -/
def Method.fromHyper : HyperMethod → Method
  | HyperMethod.Get => Method.Get
  | HyperMethod.Head => Method.Head
  | HyperMethod.Post => Method.Post
  | HyperMethod.Put => Method.Put
  | HyperMethod.Delete => Method.Delete
  | HyperMethod.Patch => Method.Patch
  | HyperMethod.Options => Method.Options
  | HyperMethod.Trace => Method.Trace
  | HyperMethod.Connect => Method.Connect
  | HyperMethod.Extension s => Method.Custom s

/-- Method.intoHyper models `impl Into<hyper::method::Method> for Method`
(lib.rs lines 69-84). -/
def Method.intoHyper : Method → HyperMethod
  | Method.Get => HyperMethod.Get
  | Method.Head => HyperMethod.Head
  | Method.Post => HyperMethod.Post
  | Method.Put => HyperMethod.Put
  | Method.Delete => HyperMethod.Delete
  | Method.Patch => HyperMethod.Patch
  | Method.Options => HyperMethod.Options
  | Method.Trace => HyperMethod.Trace
  | Method.Connect => HyperMethod.Connect
  | Method.Custom s => HyperMethod.Extension s

/-- HttpRespView is the observable data a value satisfying the `HttpResponse`
trait exposes: `status()`, `reason()`, `headers()` and `body()` (lib.rs
lines 89-106).  `RB` is the associated `Body` type. -/
structure HttpRespView (RB : Type) where
  status : Nat
  reason : String
  headers : Headers
  body : RB

/-- HttpRespView.is_1xx models the default method `is_1xx` (lib.rs 109-111):
`self.status() / 100 == 1`. -/
def HttpRespView.is_1xx {RB : Type} (r : HttpRespView RB) : Bool :=
  r.status / 100 == 1

/-- HttpRespView.is_2xx models the default method `is_2xx` (lib.rs 114-116). -/
def HttpRespView.is_2xx {RB : Type} (r : HttpRespView RB) : Bool :=
  r.status / 100 == 2

/-- HttpRespView.is_3xx models the default method `is_3xx` (lib.rs 119-121). -/
def HttpRespView.is_3xx {RB : Type} (r : HttpRespView RB) : Bool :=
  r.status / 100 == 3

/-- HttpRespView.is_4xx models the default method `is_4xx` (lib.rs 124-126). -/
def HttpRespView.is_4xx {RB : Type} (r : HttpRespView RB) : Bool :=
  r.status / 100 == 4

/-- HttpRespView.is_5xx models the default method `is_5xx` (lib.rs 129-131). -/
def HttpRespView.is_5xx {RB : Type} (r : HttpRespView RB) : Bool :=
  r.status / 100 == 5

/-- statusClassCount counts how many of the five status-class helpers report
`true` on a response. -/
def statusClassCount {RB : Type} (r : HttpRespView RB) : Nat :=
  (cond r.is_1xx 1 0) + (cond r.is_2xx 1 0) + (cond r.is_3xx 1 0)
    + (cond r.is_4xx 1 0) + (cond r.is_5xx 1 0)

/-- identity models `pub fn identity<T>(x: T) -> T { x }` (lib.rs line 157). -/
def identity {T : Type} (x : T) : T := x

/-- ApiImpl models the `Api` trait (lib.rs 162-198): a conforming type `σ`
supplies the five accessors and `parse`.  `Reply`, `BodyT`, `Error` are the
associated types; `RB` is the body type of the response handed to `parse`. -/
structure ApiImpl (σ Reply BodyT Error RB : Type) where
  method : σ → Method
  path : σ → String
  query : σ → Query
  headers : σ → Headers
  body : σ → BodyT
  parse : σ → HttpRespView RB → Except Error Reply

/-- Transform models `pub struct Transform<'a, A, H, Q, B>` (lib.rs 201-207):
it stores the wrapped Api value and the three rewrite functions. -/
structure Transform (σ BodyT NewBodyT : Type) where
  api : σ
  h : Headers → Headers
  q : Query → Query
  b : BodyT → NewBodyT

/-- Api.transform models the trait method `Api::transform` (lib.rs 188-197):
build a `Transform` from the receiver and the three rewrites. -/
def Api.transform {σ BodyT NewBodyT : Type} (a : σ)
    (h : Headers → Headers) (q : Query → Query) (b : BodyT → NewBodyT) :
    Transform σ BodyT NewBodyT :=
  { api := a, h := h, q := q, b := b }

/-- Transform.apiImpl models `impl Api for Transform` (lib.rs 209-245):
method and path delegate, query/headers/body apply the stored rewrite to the
inner value's current accessor result, parse delegates entirely. -/
def Transform.apiImpl {σ Reply BodyT NewBodyT Error RB : Type}
    (impl : ApiImpl σ Reply BodyT Error RB) :
    ApiImpl (Transform σ BodyT NewBodyT) Reply NewBodyT Error RB where
  method t := impl.method t.api
  path t := impl.path t.api
  query t := t.q (impl.query t.api)
  headers t := t.h (impl.headers t.api)
  body t := t.b (impl.body t.api)
  parse t resp := impl.parse t.api resp

/-- SendError models `pub enum SendError<S, A>` (lib.rs 248-252). -/
inductive SendError (S A : Type) where
  | Client (e : S)
  | Api (e : A)
deriving DecidableEq

/-- UrlParseError models the url crate's `ParseError` (opaque external). -/
structure UrlParseError where
  code : Nat
deriving DecidableEq

/-- HyperError models `hyper::Error` (external): the `Uri` variant is the one
this code constructs; every other variant is collapsed into `Other`. -/
inductive HyperError where
  | Uri (e : UrlParseError)
  | Other (msg : String)
deriving DecidableEq

/-- Url models the url crate's `Url` (opaque external): an opaque serialized
part plus the query string seen as the pair sequence that
`query_pairs_mut` edits. -/
structure Url where
  base : String
  query : List (String × String)
deriving DecidableEq

/-- appendPair models `Serializer::append_pair(name, value)` of
`url.query_pairs_mut()`: percent-encode name and value (the external
encoding `enc`) and append the pair at the end of the query. -/
def appendPair (enc : String → String) (u : Url) (name value : String) : Url :=
  { u with query := u.query ++ [(enc name, enc value)] }

/-- appendQueryLoop models the query loop of `Client::send` (lib.rs 274-279):
`for (name, value) in req.query() { query.append_pair(name, value) }`. -/
def appendQueryLoop (enc : String → String) (u : Url) (pairs : Query) : Url :=
  List.foldl (fun acc p => appendPair enc acc p.1 p.2) u pairs

/-- HyperHeaders models `hyper::header::Headers` (external), as raw
name/value-list entries. -/
def HyperHeaders : Type := List (String × List String)

/-- HyperHeaders.new models `hyper::header::Headers::new()`. -/
def HyperHeaders.new : HyperHeaders := []

/-- HyperHeaders.setRaw models `Headers::set_raw(name, values)`: set (not
merge) the name to the given value list, replacing any previous entry. -/
def HyperHeaders.setRaw (hs : HyperHeaders) (name : String) (vals : List String) :
    HyperHeaders :=
  hs.filter (fun p => p.1 != name) ++ [(name, vals)]

/-- setHeadersLoop models the header loop of `Client::send` (lib.rs 281-287):
`for (name, value) in req.headers() { headers.set_raw(name, ...) }` (the
byte conversion of each value is identity on our string model of bytes). -/
def setHeadersLoop (hs : HyperHeaders) (reqHeaders : Headers) : HyperHeaders :=
  List.foldl (fun acc p => HyperHeaders.setRaw acc p.1 p.2) hs reqHeaders

/-- HyperBody models `hyper::client::Body` as used here: the `ChunkedBody`
constructor wrapping the request body stream (lib.rs 272). -/
inductive HyperBody (β : Type) where
  | ChunkedBody (b : β)

/-- HyperRequest models the request hyper builds from
`self.request(method, url).headers(headers).body(body)` (lib.rs 289-292). -/
structure HyperRequest (BodyT : Type) where
  method : HyperMethod
  url : Url
  headers : HyperHeaders
  body : HyperBody BodyT

/-- HyperResponse models `hyper::client::Response` (external): status code,
raw reason phrase, the wire headers, and the unread body stream. -/
structure HyperResponse where
  status : Nat
  reason : String
  headers : HyperHeaders
  data : String

/-- HyperResponse.view models `impl HttpResponse for hyper::client::Response`
(lib.rs 136-154): status is `status.to_u16()`, reason is `status_raw().1`,
`headers()` returns `Headers::new()` (the documented stub), and `body()`
returns the response itself. -/
def HyperResponse.view (r : HyperResponse) : HttpRespView HyperResponse :=
  { status := r.status, reason := r.reason, headers := Headers.new, body := r }

/-- builtRequest is the concrete request `Client::send` hands to the
transport: converted method, joined-then-query-extended url, translated
headers, chunked body (lib.rs 271-292). -/
def builtRequest {σ Reply BodyT Error : Type} (enc : String → String)
    (impl : ApiImpl σ Reply BodyT Error HyperResponse) (u1 : Url) (req : σ) :
    HyperRequest BodyT :=
  { method := Method.intoHyper (impl.method req)
    url := appendQueryLoop enc u1 (impl.query req)
    headers := setHeadersLoop HyperHeaders.new (impl.headers req)
    body := HyperBody.ChunkedBody (impl.body req) }

/-- hyperSend models `impl Client for hyper::Client`'s `send` (lib.rs
264-297).  `urlParse`, `join` (url crate), `enc` (percent-encoding) and
`execute` (the transport `.send()`) are the opaque external collaborators. -/
def hyperSend {σ Reply BodyT Error : Type}
    (urlParse : String → Except UrlParseError Url)
    (join : Url → String → Except UrlParseError Url)
    (enc : String → String)
    (execute : HyperRequest BodyT → Except HyperError HyperResponse)
    (impl : ApiImpl σ Reply BodyT Error HyperResponse)
    (url : String) (req : σ) :
    Except (SendError HyperError Error) Reply :=
  match urlParse url with
  | Except.error e => Except.error (SendError.Client (HyperError.Uri e))
  | Except.ok u0 =>
    match join u0 (impl.path req) with
    | Except.error e => Except.error (SendError.Client (HyperError.Uri e))
    | Except.ok u1 =>
      match execute (builtRequest enc impl u1 req) with
      | Except.error e => Except.error (SendError.Client e)
      | Except.ok resp =>
        match impl.parse req resp.view with
        | Except.error e => Except.error (SendError.Api e)
        | Except.ok reply => Except.ok reply

/-- testApi models the repo's test `TestApi` (lib.rs 304-336): state is the
`n` field; method POST, path "/top", query `[("n", n.to_string())]`, empty
headers, empty body, parse always `Ok(vec![])`. -/
def testApi : ApiImpl Nat (List Nat) Unit Unit HyperResponse where
  method _ := Method.Post
  path _ := "/top"
  query n := [("n", toString n)]
  headers _ := Headers.new
  body _ := ()
  parse _ _ := Except.ok []

/-- resp204 is a concrete 204 No Content response view. -/
def resp204 : HttpRespView Unit :=
  { status := 204, reason := "No Content", headers := Headers.new, body := () }

/-- resp600 is a concrete response view with the out-of-band status 600. -/
def resp600 : HttpRespView Unit :=
  { status := 600, reason := "", headers := Headers.new, body := () }

/-- C1: the Transform produced by `a.transform(h, q, b)` delegates `method`
and `path` unchanged, applies `q` to the inner query, `h` to the inner
headers, `b` to the inner body, and its `parse` returns exactly the inner
`parse` result on every response, independent of the rewrite functions. -/
theorem c1_transform_delegation {σ Reply BodyT NewBodyT Error RB : Type}
    (impl : ApiImpl σ Reply BodyT Error RB) (a : σ)
    (h : Headers → Headers) (q : Query → Query) (b : BodyT → NewBodyT) :
    (Transform.apiImpl impl).method (Api.transform a h q b) = impl.method a
  ∧ (Transform.apiImpl impl).path (Api.transform a h q b) = impl.path a
  ∧ (Transform.apiImpl impl).query (Api.transform a h q b) = q (impl.query a)
  ∧ (Transform.apiImpl impl).headers (Api.transform a h q b) = h (impl.headers a)
  ∧ (Transform.apiImpl impl).body (Api.transform a h q b) = b (impl.body a)
  ∧ ∀ resp : HttpRespView RB,
      (Transform.apiImpl impl).parse (Api.transform a h q b) resp = impl.parse a resp :=
  ⟨rfl, rfl, rfl, rfl, rfl, fun _ => rfl⟩

/-- C3: wrapping any Api value with `identity` as all three rewrites yields a
Transform whose headers and query are value-equal to the original's. -/
theorem c3_identity_transform {σ Reply BodyT Error RB : Type}
    (impl : ApiImpl σ Reply BodyT Error RB) (a : σ) :
    (Transform.apiImpl impl).headers (Api.transform a identity identity (identity (T := BodyT)))
        = impl.headers a
  ∧ (Transform.apiImpl impl).query (Api.transform a identity identity (identity (T := BodyT)))
        = impl.query a :=
  ⟨rfl, rfl⟩

/-- C4: a Transform of a Transform is again a value satisfying the Api
capability (`Transform.apiImpl` of `Transform.apiImpl`), and the rewrites
apply in wrap order: the outer rewrite receives the already-rewritten result
of the inner one, for headers, query and body. -/
theorem c4_transform_compose {σ Reply BodyT B1 B2 Error RB : Type}
    (impl : ApiImpl σ Reply BodyT Error RB) (a : σ)
    (h1 : Headers → Headers) (q1 : Query → Query) (b1 : BodyT → B1)
    (h2 : Headers → Headers) (q2 : Query → Query) (b2 : B1 → B2) :
    (Transform.apiImpl (Transform.apiImpl impl)).headers
        (Api.transform (Api.transform a h1 q1 b1) h2 q2 b2) = h2 (h1 (impl.headers a))
  ∧ (Transform.apiImpl (Transform.apiImpl impl)).query
        (Api.transform (Api.transform a h1 q1 b1) h2 q2 b2) = q2 (q1 (impl.query a))
  ∧ (Transform.apiImpl (Transform.apiImpl impl)).body
        (Api.transform (Api.transform a h1 q1 b1) h2 q2 b2) = b2 (b1 (impl.body a))
  ∧ (Transform.apiImpl (Transform.apiImpl impl)).method
        (Api.transform (Api.transform a h1 q1 b1) h2 q2 b2) = impl.method a
  ∧ (Transform.apiImpl (Transform.apiImpl impl)).path
        (Api.transform (Api.transform a h1 q1 b1) h2 q2 b2) = impl.path a :=
  ⟨rfl, rfl, rfl, rfl, rfl⟩

/-- C6: wrapping never changes the original: each Transform stores the base
value itself unchanged, the base's accessors observed through either wrapper
are the original values, and two independently parameterized Transforms over
the same base each report only their own rewrite applied to the base's
accessors, never the other's. -/
theorem c6_transform_frame {σ Reply BodyT B1 B2 Error RB : Type}
    (impl : ApiImpl σ Reply BodyT Error RB) (a : σ)
    (h1 : Headers → Headers) (q1 : Query → Query) (b1 : BodyT → B1)
    (h2 : Headers → Headers) (q2 : Query → Query) (b2 : BodyT → B2) :
    (Api.transform a h1 q1 b1).api = a
  ∧ (Api.transform a h2 q2 b2).api = a
  ∧ impl.method ((Api.transform a h1 q1 b1).api) = impl.method a
  ∧ impl.path ((Api.transform a h1 q1 b1).api) = impl.path a
  ∧ impl.query ((Api.transform a h1 q1 b1).api) = impl.query a
  ∧ impl.headers ((Api.transform a h1 q1 b1).api) = impl.headers a
  ∧ impl.body ((Api.transform a h1 q1 b1).api) = impl.body a
  ∧ (Transform.apiImpl impl).headers (Api.transform a h1 q1 b1) = h1 (impl.headers a)
  ∧ (Transform.apiImpl impl).query (Api.transform a h1 q1 b1) = q1 (impl.query a)
  ∧ (Transform.apiImpl impl).headers (Api.transform a h2 q2 b2) = h2 (impl.headers a)
  ∧ (Transform.apiImpl impl).query (Api.transform a h2 q2 b2) = q2 (impl.query a) :=
  ⟨rfl, rfl, rfl, rfl, rfl, rfl, rfl, rfl, rfl, rfl, rfl⟩

/-- C8: the five accessors are pure: repeated calls with no intervening state
change return equal values; and a Transform's query/headers/body are not
cached — each call re-invokes the stored rewrite on the inner value's
current accessor result, so a changed inner state is reflected. -/
theorem c8_accessors_pure {σ Reply BodyT NewBodyT Error RB : Type}
    (impl : ApiImpl σ Reply BodyT Error RB) (a : σ)
    (h : Headers → Headers) (q : Query → Query) (b : BodyT → NewBodyT) :
    (impl.method a = impl.method a ∧ impl.path a = impl.path a
      ∧ impl.query a = impl.query a ∧ impl.headers a = impl.headers a
      ∧ impl.body a = impl.body a)
  ∧ (Transform.apiImpl impl).headers (Api.transform a h q b)
        = (Transform.apiImpl impl).headers (Api.transform a h q b)
  ∧ (∀ a' : σ, (Transform.apiImpl impl).headers { Api.transform a h q b with api := a' }
        = h (impl.headers a'))
  ∧ (∀ a' : σ, (Transform.apiImpl impl).query { Api.transform a h q b with api := a' }
        = q (impl.query a'))
  ∧ (∀ a' : σ, (Transform.apiImpl impl).body { Api.transform a h q b with api := a' }
        = b (impl.body a')) :=
  ⟨⟨rfl, rfl, rfl, rfl, rfl⟩, rfl, fun _ => rfl, fun _ => rfl, fun _ => rfl⟩

/-- C9: the hyper adapter's `headers()` returns the empty mapping for every
response, regardless of the headers actually present on the wire. -/
theorem c9_hyper_headers_stub (r : HyperResponse) :
    (HyperResponse.view r).headers = Headers.new
  ∧ ∀ wire : HyperHeaders,
      (HyperResponse.view { r with headers := wire }).headers = Headers.new :=
  ⟨rfl, fun _ => rfl⟩

/-- C10: the Method conversions are mutually inverse round-trips, and
`Custom s` maps to hyper's `Extension s` and back verbatim. -/
theorem c10_method_roundtrip :
    (∀ m : Method, Method.fromHyper (Method.intoHyper m) = m)
  ∧ (∀ hm : HyperMethod, Method.intoHyper (Method.fromHyper hm) = hm)
  ∧ (∀ s : String, Method.intoHyper (Method.Custom s) = HyperMethod.Extension s
      ∧ Method.fromHyper (HyperMethod.Extension s) = Method.Custom s) := by
  refine ⟨fun m => ?_, fun hm => ?_, fun s => ⟨rfl, rfl⟩⟩
  · cases m <;> rfl
  · cases hm <;> rfl

/-- C7: the query loop of `send` appends each (name, value) pair of the
request's query, in sequence order, one pair per element, duplicates
preserved, each name and value encoded once; the rest of the URL is
untouched; the executed request's URL carries exactly that query. -/
theorem c7_query_append {σ Reply BodyT Error : Type} (enc : String → String)
    (impl : ApiImpl σ Reply BodyT Error HyperResponse) (u1 : Url) (req : σ) :
    (∀ (u : Url) (pairs : Query),
        (appendQueryLoop enc u pairs).query
            = u.query ++ pairs.map (fun p => (enc p.1, enc p.2))
      ∧ (appendQueryLoop enc u pairs).base = u.base)
  ∧ (builtRequest enc impl u1 req).url.query
        = u1.query ++ (impl.query req).map (fun p => (enc p.1, enc p.2)) := by
  have main : ∀ (pairs : Query) (u : Url),
      (appendQueryLoop enc u pairs).query
          = u.query ++ pairs.map (fun p => (enc p.1, enc p.2))
        ∧ (appendQueryLoop enc u pairs).base = u.base := by
    intro pairs
    induction pairs with
    | nil => intro u; simp [appendQueryLoop]
    | cons p rest ih =>
      intro u
      have hstep := ih (appendPair enc u p.1 p.2)
      refine ⟨?_, ?_⟩
      · calc (appendQueryLoop enc u (p :: rest)).query
            = (appendQueryLoop enc (appendPair enc u p.1 p.2) rest).query := rfl
          _ = (appendPair enc u p.1 p.2).query
                ++ rest.map (fun r => (enc r.1, enc r.2)) := hstep.1
          _ = u.query ++ (p :: rest).map (fun r => (enc r.1, enc r.2)) := by
              simp [appendPair]
      · calc (appendQueryLoop enc u (p :: rest)).base
            = (appendPair enc u p.1 p.2).base := hstep.2
          _ = u.base := rfl
  exact ⟨fun u pairs => main pairs u, (main (impl.query req) u1).1⟩

/-- C5: each status-class helper computes `status / 100 == k`; every status
in [100,599] makes exactly one of the five helpers true (the one whose class
is `status / 100`), and every status outside [100,599] makes all five false. -/
theorem c5_status_class_partition {RB : Type} (r : HttpRespView RB) :
    (100 ≤ r.status → r.status ≤ 599 →
      statusClassCount r = 1
        ∧ (r.is_1xx = true ↔ r.status / 100 = 1)
        ∧ (r.is_2xx = true ↔ r.status / 100 = 2)
        ∧ (r.is_3xx = true ↔ r.status / 100 = 3)
        ∧ (r.is_4xx = true ↔ r.status / 100 = 4)
        ∧ (r.is_5xx = true ↔ r.status / 100 = 5))
  ∧ (r.status < 100 ∨ 599 < r.status →
      r.is_1xx = false ∧ r.is_2xx = false ∧ r.is_3xx = false
        ∧ r.is_4xx = false ∧ r.is_5xx = false) := by
  obtain ⟨s, rs, hs, bd⟩ := r
  simp only [statusClassCount, HttpRespView.is_1xx, HttpRespView.is_2xx,
    HttpRespView.is_3xx, HttpRespView.is_4xx, HttpRespView.is_5xx]
  constructor
  · intro hlo hhi
    have h1 : 1 ≤ s / 100 := by omega
    have h5 : s / 100 ≤ 5 := by omega
    generalize hg : s / 100 = k at h1 h5 ⊢
    interval_cases k <;> simp
  · intro hout
    have hk : s / 100 = 0 ∨ 6 ≤ s / 100 := by omega
    refine ⟨?_, ?_, ?_, ?_, ?_⟩ <;> · simp only [beq_eq_false_iff_ne, ne_eq]; omega

/-- c5 witness: at status 204 the helpers report exactly one class (2xx), and
at status 600 every helper reports false. -/
theorem c5_status_class_partition_witness :
    (statusClassCount resp204 = 1
      ∧ (resp204.is_1xx = true ↔ resp204.status / 100 = 1)
      ∧ (resp204.is_2xx = true ↔ resp204.status / 100 = 2)
      ∧ (resp204.is_3xx = true ↔ resp204.status / 100 = 3)
      ∧ (resp204.is_4xx = true ↔ resp204.status / 100 = 4)
      ∧ (resp204.is_5xx = true ↔ resp204.status / 100 = 5))
  ∧ (resp600.is_1xx = false ∧ resp600.is_2xx = false ∧ resp600.is_3xx = false
      ∧ resp600.is_4xx = false ∧ resp600.is_5xx = false) :=
  ⟨(c5_status_class_partition resp204).1 (by decide) (by decide),
   (c5_status_class_partition resp600).2 (by decide)⟩

/-- C2: `send` classifies every failure as exactly one SendError variant:
base-URL parse failure and path-join failure yield `Client (Uri e)`, a
transport execution failure yields `Client e` — and then the result is the
same for any parse function, so `parse` is never invoked; on transport
success, a parse failure yields `Api e` and a parse success is returned
directly as the overall success value. -/
theorem c2_send_classification {σ Reply BodyT Error : Type}
    (urlParse : String → Except UrlParseError Url)
    (join : Url → String → Except UrlParseError Url)
    (enc : String → String)
    (execute : HyperRequest BodyT → Except HyperError HyperResponse)
    (impl : ApiImpl σ Reply BodyT Error HyperResponse)
    (url : String) (req : σ) :
    (∀ e, urlParse url = Except.error e →
        hyperSend urlParse join enc execute impl url req
          = Except.error (SendError.Client (HyperError.Uri e)))
  ∧ (∀ u0 e, urlParse url = Except.ok u0 →
        join u0 (impl.path req) = Except.error e →
        hyperSend urlParse join enc execute impl url req
          = Except.error (SendError.Client (HyperError.Uri e)))
  ∧ (∀ u0 u1 e, urlParse url = Except.ok u0 →
        join u0 (impl.path req) = Except.ok u1 →
        execute (builtRequest enc impl u1 req) = Except.error e →
        hyperSend urlParse join enc execute impl url req
            = Except.error (SendError.Client e)
          ∧ ∀ parse2 : σ → HttpRespView HyperResponse → Except Error Reply,
              hyperSend urlParse join enc execute { impl with parse := parse2 } url req
                = Except.error (SendError.Client e))
  ∧ (∀ u0 u1 resp reply, urlParse url = Except.ok u0 →
        join u0 (impl.path req) = Except.ok u1 →
        execute (builtRequest enc impl u1 req) = Except.ok resp →
        impl.parse req resp.view = Except.ok reply →
        hyperSend urlParse join enc execute impl url req = Except.ok reply)
  ∧ (∀ u0 u1 resp e, urlParse url = Except.ok u0 →
        join u0 (impl.path req) = Except.ok u1 →
        execute (builtRequest enc impl u1 req) = Except.ok resp →
        impl.parse req resp.view = Except.error e →
        hyperSend urlParse join enc execute impl url req
          = Except.error (SendError.Api e)) := by
  refine ⟨?_, ?_, ?_, ?_, ?_⟩
  · intro e h1
    simp only [hyperSend, h1]
  · intro u0 e h1 h2
    simp only [hyperSend, h1, h2]
  · intro u0 u1 e h1 h2 h3
    constructor
    · simp only [hyperSend, h1, h2, h3]
    · intro parse2
      have hb : builtRequest enc { impl with parse := parse2 } u1 req
          = builtRequest enc impl u1 req := rfl
      simp only [hyperSend, h1, h2, hb, h3]
  · intro u0 u1 resp reply h1 h2 h3 h4
    simp only [hyperSend, h1, h2, h3, h4]
  · intro u0 u1 resp e h1 h2 h3 h4
    simp only [hyperSend, h1, h2, h3, h4]

/-- c2 witness: with concrete external collaborators and the repo's TestApi,
each branch of the classification is realized: a failing base-URL parse, a
failing join, a failing transport (whose result ignores a replaced parse),
a full success, and a failing parse. -/
theorem c2_send_classification_witness :
    (hyperSend (fun _ => Except.error { code := 7 }) (fun u _ => Except.ok u)
        (fun s => s) (fun _ => Except.error (HyperError.Other "down")) testApi
        "http://example.com" 10
      = Except.error (SendError.Client (HyperError.Uri { code := 7 })))
  ∧ (hyperSend (fun _ => Except.ok { base := "b", query := [] })
        (fun _ _ => Except.error { code := 9 }) (fun s => s)
        (fun _ => Except.error (HyperError.Other "down")) testApi
        "http://example.com" 10
      = Except.error (SendError.Client (HyperError.Uri { code := 9 })))
  ∧ (hyperSend (fun _ => Except.ok { base := "b", query := [] })
        (fun u _ => Except.ok u) (fun s => s)
        (fun _ => Except.error (HyperError.Other "down")) testApi
        "http://example.com" 10
      = Except.error (SendError.Client (HyperError.Other "down")))
  ∧ (hyperSend (fun _ => Except.ok { base := "b", query := [] })
        (fun u _ => Except.ok u) (fun s => s)
        (fun _ => Except.ok { status := 200, reason := "OK", headers := [], data := "" })
        testApi "http://example.com" 10
      = Except.ok [])
  ∧ (hyperSend (fun _ => Except.ok { base := "b", query := [] })
        (fun u _ => Except.ok u) (fun s => s)
        (fun _ => Except.ok { status := 200, reason := "OK", headers := [], data := "" })
        { testApi with parse := fun _ _ => (Except.error () : Except Unit (List Nat)) }
        "http://example.com" 10
      = Except.error (SendError.Api ())) := by
  refine ⟨?_, ?_, ?_, ?_, ?_⟩
  · exact (c2_send_classification (fun _ => Except.error { code := 7 })
      (fun u _ => Except.ok u) (fun s => s)
      (fun _ => Except.error (HyperError.Other "down")) testApi
      "http://example.com" 10).1 { code := 7 } rfl
  · exact (c2_send_classification (fun _ => Except.ok { base := "b", query := [] })
      (fun _ _ => Except.error { code := 9 }) (fun s => s)
      (fun _ => Except.error (HyperError.Other "down")) testApi
      "http://example.com" 10).2.1 { base := "b", query := [] } { code := 9 } rfl rfl
  · exact ((c2_send_classification (fun _ => Except.ok { base := "b", query := [] })
      (fun u _ => Except.ok u) (fun s => s)
      (fun _ => Except.error (HyperError.Other "down")) testApi
      "http://example.com" 10).2.2.1 { base := "b", query := [] }
      { base := "b", query := [] } (HyperError.Other "down") rfl rfl rfl).1
  · exact (c2_send_classification (fun _ => Except.ok { base := "b", query := [] })
      (fun u _ => Except.ok u) (fun s => s)
      (fun _ => Except.ok { status := 200, reason := "OK", headers := [], data := "" })
      testApi "http://example.com" 10).2.2.2.1 { base := "b", query := [] }
      { base := "b", query := [] }
      { status := 200, reason := "OK", headers := [], data := "" } [] rfl rfl rfl rfl
  · exact (c2_send_classification (fun _ => Except.ok { base := "b", query := [] })
      (fun u _ => Except.ok u) (fun s => s)
      (fun _ => Except.ok { status := 200, reason := "OK", headers := [], data := "" })
      { testApi with parse := fun _ _ => (Except.error () : Except Unit (List Nat)) }
      "http://example.com" 10).2.2.2.2
      { base := "b", query := [] } { base := "b", query := [] }
      { status := 200, reason := "OK", headers := [], data := "" } () rfl rfl rfl rfl

end ApiCore
